import Mathlib

/-!
Verification of the OFX document builder `generate_ofx` from
`bank_statement_automator.py` (fermano/bank-statement-automator).

The builder is shallowly embedded as follows.

* A Python `dict` (the raw transaction records and the balance snapshot)
  is modelled as an association list from string keys to values, where a
  value is represented by its Python string representation `str(v)` —
  that is exactly what the f-string interpolation in `generate_ofx`
  observes.  For example the JSON number `150.00` is parsed by Python to
  the float `150.0`, whose `str` is `"150.0"`; the integer default `0`
  of `tr.get("valor", 0)` has `str` `"0"`; `None` prints as `"None"`.
* `dict.get(k)` is `PyDict.get`, `dict.get(k, d)` is `PyDict.getD`.
* The ambient system clock read `date.today().strftime('%Y%m%d')` is
  injected as the parameter `today`; the per-transaction `uuid4().hex`
  calls are injected as the stream `fitids : Nat → String`, consumed in
  order (transaction number `i` receives `fitids i`).
* The builder assembles a list of lines and returns
  `"\n".join(lines).encode("utf-8")`; `generate_ofx_lines` is that list
  of lines, `generate_ofx` the joined UTF-8 byte sequence.
-/

/-- A Python mapping with string keys, values represented by their
Python string representation. -/
abbrev PyDict := List (String × String)

/-- Python `d.get(k)`: the value bound to `k`, if present. -/
def PyDict.get (d : PyDict) (k : String) : Option String :=
  (d.find? (fun p => p.1 == k)).map (fun p => p.2)

/-- Python `d.get(k, dflt)`. -/
def PyDict.getD (d : PyDict) (k dflt : String) : String :=
  (d.get k).getD dflt

/-- Python f-string interpolation of a value that may be `None`
(`str(None) = "None"`). -/
def fstrOpt : Option String → String
  | some s => s
  | none => "None"

/-- Python `s.replace("-", "")`: remove every dash. -/
def stripDashes (s : String) : String :=
  String.mk (s.data.filter (fun c => c != '-'))

/-- The fixed lines emitted by `generate_ofx` before the transaction
loop (source lines 100–144): the nine OFX header lines, a blank line,
the sign-on block, the statement-response envelope, the bank-account
block and the opening of the transaction list with its date range. -/
def preludeLines (today start_date end_date : String) : List String :=
  ["OFXHEADER:100",
   "DATA:OFXSGML",
   "VERSION:102",
   "SECURITY:NONE",
   "ENCODING:USASCII",
   "CHARSET:1252",
   "COMPRESSION:NONE",
   "OLDFILEUID:NONE",
   "NEWFILEUID:NONE",
   "",
   "<OFX>",
   "<SIGNONMSGSRSV1>",
   "<SONRS>",
   "<STATUS>",
   "<CODE>0</CODE>",
   "<SEVERITY>INFO</SEVERITY>",
   "</STATUS>",
   "<DTSERVER>" ++ today ++ "</DTSERVER>",
   "<LANGUAGE>POR</LANGUAGE>",
   "<FI>",
   "<ORG>Banco Intermedium S/A</ORG>",
   "<FID>077</FID>",
   "</FI>",
   "</SONRS>",
   "</SIGNONMSGSRSV1>",
   "<BANKMSGSRSV1>",
   "<STMTTRNRS>",
   "<TRNUID>1001</TRNUID>",
   "<STATUS>",
   "<CODE>0</CODE>",
   "<SEVERITY>INFO</SEVERITY>",
   "</STATUS>",
   "<STMTRS>",
   "<CURDEF>BRL</CURDEF>",
   "<BANKACCTFROM>",
   "<BANKID>077</BANKID>",
   "<BRANCHID>0001-9</BRANCHID>",
   "<ACCTID>94401993</ACCTID>",
   "<ACCTTYPE>CHECKING</ACCTTYPE>",
   "</BANKACCTFROM>",
   "<BANKTRANLIST>",
   "<DTSTART>" ++ stripDashes start_date ++ "</DTSTART>",
   "<DTEND>" ++ stripDashes end_date ++ "</DTEND>"]

/-- One iteration of the transaction loop of `generate_ofx` (source
lines 146–161): the `<STMTTRN>` block emitted for raw record `tr`,
with `fitid` the `uuid4().hex` value drawn in this iteration. -/
def trnLines (fitid : String) (tr : PyDict) : List String :=
  let tipo := if tr.get "tipoOperacao" == some "C" then "CREDIT" else "PAYMENT"
  let dt := stripDashes (tr.getD "dataEntrada" "")
  let valor := tr.getD "valor" "0"
  let desc := tr.getD "descricao" ""
  ["<STMTTRN>",
   "<TRNTYPE>" ++ tipo ++ "</TRNTYPE>",
   "<DTPOSTED>" ++ dt ++ "</DTPOSTED>",
   "<TRNAMT>" ++ (if tipo == "PAYMENT" then "-" else "") ++ valor ++ "</TRNAMT>",
   "<FITID>" ++ fitid ++ "</FITID>",
   "<CHECKNUM>077</CHECKNUM>",
   "<REFNUM>077</REFNUM>",
   "<MEMO>" ++ desc ++ "</MEMO>",
   "</STMTTRN>"]

/-- The transaction loop: one `<STMTTRN>` block per record, in list
order, drawing id number `i`, `i+1`, … from the injected id stream. -/
def stmtTrnBlocks (fitids : Nat → String) (i : Nat) : List PyDict → List String
  | [] => []
  | tr :: rest => trnLines (fitids i) tr ++ stmtTrnBlocks fitids (i + 1) rest

/-- The fixed lines emitted by `generate_ofx` after the transaction
loop (source lines 163–173): the ledger-balance block and all closing
tags. -/
def epilogueLines (today : String) (saldo : PyDict) : List String :=
  ["</BANKTRANLIST>",
   "<LEDGERBAL>",
   "<BALAMT>" ++ fstrOpt (saldo.get "disponivel") ++ "</BALAMT>",
   "<DTASOF>" ++ today ++ "</DTASOF>",
   "</LEDGERBAL>",
   "</STMTRS>",
   "</STMTTRNRS>",
   "</BANKMSGSRSV1>",
   "</OFX>"]

/-- The full list of lines assembled by `generate_ofx`. -/
def generate_ofx_lines (fitids : Nat → String) (today : String)
    (transactions : List PyDict) (saldo : PyDict)
    (start_date end_date : String) : List String :=
  preludeLines today start_date end_date
    ++ stmtTrnBlocks fitids 0 transactions
    ++ epilogueLines today saldo

/-- `generate_ofx` itself: `"\n".join(lines).encode("utf-8")`. -/
def generate_ofx (fitids : Nat → String) (today : String)
    (transactions : List PyDict) (saldo : PyDict)
    (start_date end_date : String) : ByteArray :=
  (String.intercalate "\n"
    (generate_ofx_lines fitids today transactions saldo start_date end_date)).toUTF8

/-- Character-list test: does `p` begin `s`? -/
def chStarts : List Char → List Char → Bool
  | [], _ => true
  | _ :: _, [] => false
  | a :: as, b :: bs => a == b && chStarts as bs

/-- Line classifier: does line `l` start with the tag text `p`? -/
def lineStarts (p l : String) : Bool := chStarts p.data l.data

/-- The type string the loop computes for a record (`"CREDIT"` iff the
raw operation-type field is exactly `"C"`). -/
def tipoOf (tr : PyDict) : String :=
  if tr.get "tipoOperacao" == some "C" then "CREDIT" else "PAYMENT"

/-- The `<TRNTYPE>` line emitted for a record. -/
def trntypeLineOf (tr : PyDict) : String := "<TRNTYPE>" ++ tipoOf tr ++ "</TRNTYPE>"

/-- The `<DTPOSTED>` line emitted for a record. -/
def dtpostedLineOf (tr : PyDict) : String :=
  "<DTPOSTED>" ++ stripDashes (tr.getD "dataEntrada" "") ++ "</DTPOSTED>"

/-- The `<TRNAMT>` line emitted for a record. -/
def trnamtLineOf (tr : PyDict) : String :=
  "<TRNAMT>" ++ (if tipoOf tr == "PAYMENT" then "-" else "") ++ tr.getD "valor" "0" ++ "</TRNAMT>"

/-- The `<MEMO>` line emitted for a record. -/
def memoLineOf (tr : PyDict) : String := "<MEMO>" ++ tr.getD "descricao" "" ++ "</MEMO>"

/-- The `<FITID>` line carrying a given synthesized id. -/
def fitidLineOf (s : String) : String := "<FITID>" ++ s ++ "</FITID>"

/-- The `<BALAMT>` line emitted for a balance snapshot. -/
def balamtLineOf (saldo : PyDict) : String :=
  "<BALAMT>" ++ fstrOpt (saldo.get "disponivel") ++ "</BALAMT>"

theorem trn_filter_stmttrn (fitid : String) (tr : PyDict) :
    (trnLines fitid tr).filter (lineStarts "<STMTTRN>") = ["<STMTTRN>"] := by
  simp [trnLines, lineStarts, chStarts, String.data_append, List.filter]

theorem trn_filter_stmttrn_close (fitid : String) (tr : PyDict) :
    (trnLines fitid tr).filter (lineStarts "</STMTTRN>") = ["</STMTTRN>"] := by
  simp [trnLines, lineStarts, chStarts, String.data_append, List.filter]

theorem trn_filter_trntype (fitid : String) (tr : PyDict) :
    (trnLines fitid tr).filter (lineStarts "<TRNTYPE>") = [trntypeLineOf tr] := by
  simp [trnLines, trntypeLineOf, tipoOf, lineStarts, chStarts, String.data_append, List.filter]

theorem trn_filter_dtposted (fitid : String) (tr : PyDict) :
    (trnLines fitid tr).filter (lineStarts "<DTPOSTED>") = [dtpostedLineOf tr] := by
  simp [trnLines, dtpostedLineOf, lineStarts, chStarts, String.data_append, List.filter]

theorem trn_filter_trnamt (fitid : String) (tr : PyDict) :
    (trnLines fitid tr).filter (lineStarts "<TRNAMT>") = [trnamtLineOf tr] := by
  simp [trnLines, trnamtLineOf, tipoOf, lineStarts, chStarts, String.data_append, List.filter]

theorem trn_filter_fitid (fitid : String) (tr : PyDict) :
    (trnLines fitid tr).filter (lineStarts "<FITID>") = [fitidLineOf fitid] := by
  simp [trnLines, fitidLineOf, lineStarts, chStarts, String.data_append, List.filter]

theorem trn_filter_memo (fitid : String) (tr : PyDict) :
    (trnLines fitid tr).filter (lineStarts "<MEMO>") = [memoLineOf tr] := by
  simp [trnLines, memoLineOf, lineStarts, chStarts, String.data_append, List.filter]

theorem blocks_filter_nil (p : String → Bool)
    (h : ∀ fitid tr, (trnLines fitid tr).filter p = [])
    (fitids : Nat → String) :
    ∀ (i : Nat) (trs : List PyDict), (stmtTrnBlocks fitids i trs).filter p = [] := by
  intro i trs
  induction trs generalizing i with
  | nil => rfl
  | cons tr rest ih => simp [stmtTrnBlocks, List.filter_append, h, ih]

theorem blocks_filter_map (p : String → Bool) (F : PyDict → String)
    (h : ∀ fitid tr, (trnLines fitid tr).filter p = [F tr])
    (fitids : Nat → String) :
    ∀ (i : Nat) (trs : List PyDict), (stmtTrnBlocks fitids i trs).filter p = trs.map F := by
  intro i trs
  induction trs generalizing i with
  | nil => rfl
  | cons tr rest ih => simp [stmtTrnBlocks, List.filter_append, h, ih]

theorem blocks_filter_fitid (fitids : Nat → String) :
    ∀ (i : Nat) (trs : List PyDict),
      (stmtTrnBlocks fitids i trs).filter (lineStarts "<FITID>")
        = (List.range' i trs.length).map (fun k => fitidLineOf (fitids k)) := by
  intro i trs
  induction trs generalizing i with
  | nil => rfl
  | cons tr rest ih =>
    simp [stmtTrnBlocks, List.filter_append, trn_filter_fitid, List.range', ih]

theorem doc_filter_memo (fitids : Nat → String) (today : String) (trs : List PyDict)
    (saldo : PyDict) (sd ed : String) :
    (generate_ofx_lines fitids today trs saldo sd ed).filter (lineStarts "<MEMO>")
      = trs.map memoLineOf := by
  have hb := blocks_filter_map (lineStarts "<MEMO>") memoLineOf trn_filter_memo fitids 0 trs
  simp [generate_ofx_lines, preludeLines, epilogueLines, List.filter_append, hb,
        lineStarts, chStarts, String.data_append, List.filter]

theorem doc_filter_dtposted (fitids : Nat → String) (today : String) (trs : List PyDict)
    (saldo : PyDict) (sd ed : String) :
    (generate_ofx_lines fitids today trs saldo sd ed).filter (lineStarts "<DTPOSTED>")
      = trs.map dtpostedLineOf := by
  have hb := blocks_filter_map (lineStarts "<DTPOSTED>") dtpostedLineOf trn_filter_dtposted fitids 0 trs
  simp [generate_ofx_lines, preludeLines, epilogueLines, List.filter_append, hb,
        lineStarts, chStarts, String.data_append, List.filter]

theorem doc_filter_trntype (fitids : Nat → String) (today : String) (trs : List PyDict)
    (saldo : PyDict) (sd ed : String) :
    (generate_ofx_lines fitids today trs saldo sd ed).filter (lineStarts "<TRNTYPE>")
      = trs.map trntypeLineOf := by
  have hb := blocks_filter_map (lineStarts "<TRNTYPE>") trntypeLineOf trn_filter_trntype fitids 0 trs
  simp [generate_ofx_lines, preludeLines, epilogueLines, List.filter_append, hb,
        lineStarts, chStarts, String.data_append, List.filter]

theorem doc_filter_trnamt (fitids : Nat → String) (today : String) (trs : List PyDict)
    (saldo : PyDict) (sd ed : String) :
    (generate_ofx_lines fitids today trs saldo sd ed).filter (lineStarts "<TRNAMT>")
      = trs.map trnamtLineOf := by
  have hb := blocks_filter_map (lineStarts "<TRNAMT>") trnamtLineOf trn_filter_trnamt fitids 0 trs
  simp [generate_ofx_lines, preludeLines, epilogueLines, List.filter_append, hb,
        lineStarts, chStarts, String.data_append, List.filter]

theorem doc_filter_stmttrn (fitids : Nat → String) (today : String) (trs : List PyDict)
    (saldo : PyDict) (sd ed : String) :
    (generate_ofx_lines fitids today trs saldo sd ed).filter (lineStarts "<STMTTRN>")
      = trs.map (fun _ => "<STMTTRN>") := by
  have hb := blocks_filter_map (lineStarts "<STMTTRN>") (fun _ => "<STMTTRN>")
    trn_filter_stmttrn fitids 0 trs
  simp [generate_ofx_lines, preludeLines, epilogueLines, List.filter_append, hb,
        lineStarts, chStarts, String.data_append, List.filter]

theorem doc_filter_stmttrn_close (fitids : Nat → String) (today : String) (trs : List PyDict)
    (saldo : PyDict) (sd ed : String) :
    (generate_ofx_lines fitids today trs saldo sd ed).filter (lineStarts "</STMTTRN>")
      = trs.map (fun _ => "</STMTTRN>") := by
  have hb := blocks_filter_map (lineStarts "</STMTTRN>") (fun _ => "</STMTTRN>")
    trn_filter_stmttrn_close fitids 0 trs
  simp [generate_ofx_lines, preludeLines, epilogueLines, List.filter_append, hb,
        lineStarts, chStarts, String.data_append, List.filter]

theorem doc_filter_fitid (fitids : Nat → String) (today : String) (trs : List PyDict)
    (saldo : PyDict) (sd ed : String) :
    (generate_ofx_lines fitids today trs saldo sd ed).filter (lineStarts "<FITID>")
      = (List.range trs.length).map (fun k => fitidLineOf (fitids k)) := by
  have hb := blocks_filter_fitid fitids 0 trs
  rw [List.range_eq_range']
  simp [generate_ofx_lines, preludeLines, epilogueLines, List.filter_append, hb,
        lineStarts, chStarts, String.data_append, List.filter]

theorem doc_filter_dtstart (fitids : Nat → String) (today : String) (trs : List PyDict)
    (saldo : PyDict) (sd ed : String) :
    (generate_ofx_lines fitids today trs saldo sd ed).filter (lineStarts "<DTSTART>")
      = ["<DTSTART>" ++ stripDashes sd ++ "</DTSTART>"] := by
  have htrn : ∀ fid tr, (trnLines fid tr).filter (lineStarts "<DTSTART>") = [] := by
    intro fid tr
    simp [trnLines, lineStarts, chStarts, String.data_append, List.filter]
  have hb := blocks_filter_nil _ htrn fitids 0 trs
  simp [generate_ofx_lines, preludeLines, epilogueLines, List.filter_append, hb,
        lineStarts, chStarts, String.data_append, List.filter]

theorem doc_filter_dtend (fitids : Nat → String) (today : String) (trs : List PyDict)
    (saldo : PyDict) (sd ed : String) :
    (generate_ofx_lines fitids today trs saldo sd ed).filter (lineStarts "<DTEND>")
      = ["<DTEND>" ++ stripDashes ed ++ "</DTEND>"] := by
  have htrn : ∀ fid tr, (trnLines fid tr).filter (lineStarts "<DTEND>") = [] := by
    intro fid tr
    simp [trnLines, lineStarts, chStarts, String.data_append, List.filter]
  have hb := blocks_filter_nil _ htrn fitids 0 trs
  simp [generate_ofx_lines, preludeLines, epilogueLines, List.filter_append, hb,
        lineStarts, chStarts, String.data_append, List.filter]

theorem doc_filter_balamt (fitids : Nat → String) (today : String) (trs : List PyDict)
    (saldo : PyDict) (sd ed : String) :
    (generate_ofx_lines fitids today trs saldo sd ed).filter (lineStarts "<BALAMT>")
      = [balamtLineOf saldo] := by
  have htrn : ∀ fid tr, (trnLines fid tr).filter (lineStarts "<BALAMT>") = [] := by
    intro fid tr
    simp [trnLines, lineStarts, chStarts, String.data_append, List.filter]
  have hb := blocks_filter_nil _ htrn fitids 0 trs
  simp [generate_ofx_lines, preludeLines, epilogueLines, balamtLineOf, List.filter_append, hb,
        lineStarts, chStarts, String.data_append, List.filter]

theorem doc_filter_ofx_open (fitids : Nat → String) (today : String) (trs : List PyDict)
    (saldo : PyDict) (sd ed : String) :
    (generate_ofx_lines fitids today trs saldo sd ed).filter (lineStarts "<OFX>")
      = ["<OFX>"] := by
  have htrn : ∀ fid tr, (trnLines fid tr).filter (lineStarts "<OFX>") = [] := by
    intro fid tr
    simp [trnLines, lineStarts, chStarts, String.data_append, List.filter]
  have hb := blocks_filter_nil _ htrn fitids 0 trs
  simp [generate_ofx_lines, preludeLines, epilogueLines, List.filter_append, hb,
        lineStarts, chStarts, String.data_append, List.filter]

theorem doc_filter_ofx_close (fitids : Nat → String) (today : String) (trs : List PyDict)
    (saldo : PyDict) (sd ed : String) :
    (generate_ofx_lines fitids today trs saldo sd ed).filter (lineStarts "</OFX>")
      = ["</OFX>"] := by
  have htrn : ∀ fid tr, (trnLines fid tr).filter (lineStarts "</OFX>") = [] := by
    intro fid tr
    simp [trnLines, lineStarts, chStarts, String.data_append, List.filter]
  have hb := blocks_filter_nil _ htrn fitids 0 trs
  simp [generate_ofx_lines, preludeLines, epilogueLines, List.filter_append, hb,
        lineStarts, chStarts, String.data_append, List.filter]

theorem doc_filter_btl_open (fitids : Nat → String) (today : String) (trs : List PyDict)
    (saldo : PyDict) (sd ed : String) :
    (generate_ofx_lines fitids today trs saldo sd ed).filter (lineStarts "<BANKTRANLIST>")
      = ["<BANKTRANLIST>"] := by
  have htrn : ∀ fid tr, (trnLines fid tr).filter (lineStarts "<BANKTRANLIST>") = [] := by
    intro fid tr
    simp [trnLines, lineStarts, chStarts, String.data_append, List.filter]
  have hb := blocks_filter_nil _ htrn fitids 0 trs
  simp [generate_ofx_lines, preludeLines, epilogueLines, List.filter_append, hb,
        lineStarts, chStarts, String.data_append, List.filter]

theorem doc_filter_btl_close (fitids : Nat → String) (today : String) (trs : List PyDict)
    (saldo : PyDict) (sd ed : String) :
    (generate_ofx_lines fitids today trs saldo sd ed).filter (lineStarts "</BANKTRANLIST>")
      = ["</BANKTRANLIST>"] := by
  have htrn : ∀ fid tr, (trnLines fid tr).filter (lineStarts "</BANKTRANLIST>") = [] := by
    intro fid tr
    simp [trnLines, lineStarts, chStarts, String.data_append, List.filter]
  have hb := blocks_filter_nil _ htrn fitids 0 trs
  simp [generate_ofx_lines, preludeLines, epilogueLines, List.filter_append, hb,
        lineStarts, chStarts, String.data_append, List.filter]

theorem doc_filter_ledgerbal (fitids : Nat → String) (today : String) (trs : List PyDict)
    (saldo : PyDict) (sd ed : String) :
    (generate_ofx_lines fitids today trs saldo sd ed).filter (lineStarts "<LEDGERBAL>")
      = ["<LEDGERBAL>"] := by
  have htrn : ∀ fid tr, (trnLines fid tr).filter (lineStarts "<LEDGERBAL>") = [] := by
    intro fid tr
    simp [trnLines, lineStarts, chStarts, String.data_append, List.filter]
  have hb := blocks_filter_nil _ htrn fitids 0 trs
  simp [generate_ofx_lines, preludeLines, epilogueLines, List.filter_append, hb,
        lineStarts, chStarts, String.data_append, List.filter]

/-- C1: `generate_ofx` emits exactly one `<STMTTRN>` transaction block
per input transaction, and the blocks appear in the output in the same
relative order as the input list — no reordering, filtering or
deduplication.  The count of `<STMTTRN>` (and `</STMTTRN>`) lines
equals the number of input records, and projecting the output onto its
`<MEMO>`, `<DTPOSTED>` and `<TRNAMT>` lines yields precisely the input
records' data, in input order. -/
theorem ofx_one_block_per_transaction_in_order (fitids : Nat → String) (today : String)
    (transactions : List PyDict) (saldo : PyDict) (start_date end_date : String) :
    (generate_ofx_lines fitids today transactions saldo start_date end_date).countP
        (lineStarts "<STMTTRN>") = transactions.length
  ∧ (generate_ofx_lines fitids today transactions saldo start_date end_date).countP
        (lineStarts "</STMTTRN>") = transactions.length
  ∧ (generate_ofx_lines fitids today transactions saldo start_date end_date).filter
        (lineStarts "<MEMO>") = transactions.map memoLineOf
  ∧ (generate_ofx_lines fitids today transactions saldo start_date end_date).filter
        (lineStarts "<DTPOSTED>") = transactions.map dtpostedLineOf
  ∧ (generate_ofx_lines fitids today transactions saldo start_date end_date).filter
        (lineStarts "<TRNAMT>") = transactions.map trnamtLineOf := by
  refine ⟨?_, ?_, doc_filter_memo .., doc_filter_dtposted .., doc_filter_trnamt ..⟩
  · rw [List.countP_eq_length_filter, doc_filter_stmttrn, List.length_map]
  · rw [List.countP_eq_length_filter, doc_filter_stmttrn_close, List.length_map]

/-- C3: the output contains a `<DTSTART>` line whose value is the input
start date with dashes removed and a `<DTEND>` line whose value is the
input end date with dashes removed, and each occurs in the output
exactly once (the projection of the output onto its `<DTSTART>`
respectively `<DTEND>` lines is a singleton). -/
theorem ofx_dtstart_dtend_once (fitids : Nat → String) (today : String)
    (transactions : List PyDict) (saldo : PyDict) (start_date end_date : String) :
    (generate_ofx_lines fitids today transactions saldo start_date end_date).filter
        (lineStarts "<DTSTART>")
      = ["<DTSTART>" ++ stripDashes start_date ++ "</DTSTART>"]
  ∧ (generate_ofx_lines fitids today transactions saldo start_date end_date).filter
        (lineStarts "<DTEND>")
      = ["<DTEND>" ++ stripDashes end_date ++ "</DTEND>"] :=
  ⟨doc_filter_dtstart .., doc_filter_dtend ..⟩

/-- C4: `generate_ofx` is total — every input yields a byte sequence —
and the empty transaction list produces a document with a
`<BANKTRANLIST>` block containing zero `<STMTTRN>` children and a
populated ledger-balance block, while for every input (empty or not)
the `<OFX>` envelope and the ledger-balance block occur exactly once. -/
theorem generate_ofx_total_and_empty_list (fitids : Nat → String) (today : String)
    (saldo : PyDict) (start_date end_date : String) :
    (∀ transactions, ∃ bs, generate_ofx fitids today transactions saldo start_date end_date = bs)
  ∧ (generate_ofx_lines fitids today [] saldo start_date end_date).countP
        (lineStarts "<STMTTRN>") = 0
  ∧ (generate_ofx_lines fitids today [] saldo start_date end_date).countP
        (lineStarts "<BANKTRANLIST>") = 1
  ∧ (generate_ofx_lines fitids today [] saldo start_date end_date).countP
        (lineStarts "</BANKTRANLIST>") = 1
  ∧ (generate_ofx_lines fitids today [] saldo start_date end_date).filter
        (lineStarts "<BALAMT>") = [balamtLineOf saldo]
  ∧ (∀ transactions,
      (generate_ofx_lines fitids today transactions saldo start_date end_date).countP
          (lineStarts "<OFX>") = 1
    ∧ (generate_ofx_lines fitids today transactions saldo start_date end_date).countP
          (lineStarts "</OFX>") = 1
    ∧ (generate_ofx_lines fitids today transactions saldo start_date end_date).countP
          (lineStarts "<LEDGERBAL>") = 1) := by
  refine ⟨fun transactions => ⟨_, rfl⟩, ?_, ?_, ?_, doc_filter_balamt .., fun transactions => ⟨?_, ?_, ?_⟩⟩
  · rw [List.countP_eq_length_filter, doc_filter_stmttrn]; rfl
  · rw [List.countP_eq_length_filter, doc_filter_btl_open]; rfl
  · rw [List.countP_eq_length_filter, doc_filter_btl_close]; rfl
  · rw [List.countP_eq_length_filter, doc_filter_ofx_open]; rfl
  · rw [List.countP_eq_length_filter, doc_filter_ofx_close]; rfl
  · rw [List.countP_eq_length_filter, doc_filter_ledgerbal]; rfl

/-- A fixed synthesized-id stream used for concrete counterexample
inputs. -/
def fitids0 : Nat → String := fun _ => "0123456789abcdef0123456789abcdef"

/-- C6 counterexample: the plain-text header block of the output has
nine colon-delimited lines, not eight — after eight header lines the
output does not reach the blank line: line index 8 is the ninth header
line `NEWFILEUID:NONE`, and the blank line only follows at index 9. -/
theorem ofx_header_not_eight_lines :
    (generate_ofx_lines fitids0 "20240315" [] [] "2024-03-01" "2024-03-31")[8]?
        = some "NEWFILEUID:NONE"
  ∧ (generate_ofx_lines fitids0 "20240315" [] [] "2024-03-01" "2024-03-31")[8]? ≠ some ""
  ∧ (generate_ofx_lines fitids0 "20240315" [] [] "2024-03-01" "2024-03-31")[9]? = some "" := by
  refine ⟨rfl, by decide, rfl⟩

/-- C6 amended: the output begins with a plain-text header block of
NINE colon-delimited header lines (OFXHEADER, DATA, VERSION, SECURITY,
ENCODING, CHARSET, COMPRESSION, OLDFILEUID, NEWFILEUID) followed by one
blank line, and these lines are static constants independent of the
input. -/
theorem ofx_header_nine_static_lines (fitids : Nat → String) (today : String)
    (transactions : List PyDict) (saldo : PyDict) (start_date end_date : String) :
    (generate_ofx_lines fitids today transactions saldo start_date end_date).take 10
      = ["OFXHEADER:100", "DATA:OFXSGML", "VERSION:102", "SECURITY:NONE",
         "ENCODING:USASCII", "CHARSET:1252", "COMPRESSION:NONE", "OLDFILEUID:NONE",
         "NEWFILEUID:NONE", ""] := rfl

theorem chStarts_one_of_append (c : Char) (l : List Char) (d : Char) (rest : List Char)
    (h : chStarts [c] l = false) (hd : (c == d) = false) :
    chStarts [c] (l ++ d :: rest) = false := by
  cases l with
  | nil => simp [chStarts, hd]
  | cons a as => simpa [chStarts] using h

/-- C2: a record whose raw operation-type field is exactly `"C"` is
emitted with type tag CREDIT and its amount value is the raw amount
with nothing prefixed (in particular no leading minus sign when the raw
amount has none); every other record — including one with the field
absent — is emitted with type tag PAYMENT and its amount value is the
raw amount prefixed with a minus sign. -/
theorem ofx_credit_payment_mapping (fitid : String) (tr : PyDict) :
    (tr.get "tipoOperacao" = some "C" →
      (trnLines fitid tr)[1]? = some "<TRNTYPE>CREDIT</TRNTYPE>"
      ∧ (trnLines fitid tr)[3]? = some ("<TRNAMT>" ++ tr.getD "valor" "0" ++ "</TRNAMT>")
      ∧ (lineStarts "-" (tr.getD "valor" "0") = false →
          lineStarts "<TRNAMT>-" (((trnLines fitid tr)[3]?).getD "") = false))
  ∧ (tr.get "tipoOperacao" ≠ some "C" →
      (trnLines fitid tr)[1]? = some "<TRNTYPE>PAYMENT</TRNTYPE>"
      ∧ (trnLines fitid tr)[3]? = some ("<TRNAMT>-" ++ tr.getD "valor" "0" ++ "</TRNAMT>")
      ∧ lineStarts "<TRNAMT>-" (((trnLines fitid tr)[3]?).getD "") = true) := by
  constructor
  · intro h
    have h32 : (trnLines fitid tr)[3]?
        = some ("<TRNAMT>" ++ tr.getD "valor" "0" ++ "</TRNAMT>") := by
      simp [trnLines, h, String.ext_iff, String.data_append]
    refine ⟨by simp [trnLines, h], h32, ?_⟩
    intro hv
    have h1 : chStarts ['-'] (tr.getD "valor" "0").data = false := by
      simpa [lineStarts, chStarts] using hv
    have hd : (('-' : Char) == '<') = false := by decide
    rw [h32]
    simp only [Option.getD_some, lineStarts, chStarts, String.data_append]
    simp [chStarts, List.append_assoc]
    exact chStarts_one_of_append _ _ _ _ h1 hd
  · intro h
    have h32 : (trnLines fitid tr)[3]?
        = some ("<TRNAMT>-" ++ tr.getD "valor" "0" ++ "</TRNAMT>") := by
      simp [trnLines, h, String.ext_iff, String.data_append]
    refine ⟨by simp [trnLines, h], h32, ?_⟩
    rw [h32]
    simp [lineStarts, chStarts, String.data_append]

/-- C10: a non-credit record (operation-type field absent or different
from `"C"`) always has its amount emitted with the minus sign prefixed,
whatever the amount is; in particular when the amount field is absent
the defaulted amount is `0` and the emitted line is
`<TRNAMT>-0</TRNAMT>`. -/
theorem ofx_payment_minus_zero_default (fitid : String) (tr : PyDict) :
    tr.get "tipoOperacao" ≠ some "C" →
      ((trnLines fitid tr)[3]? = some ("<TRNAMT>-" ++ tr.getD "valor" "0" ++ "</TRNAMT>")
       ∧ (tr.get "valor" = none →
            (trnLines fitid tr)[3]? = some "<TRNAMT>-0</TRNAMT>")) := by
  intro h
  constructor
  · simp [trnLines, h, String.ext_iff, String.data_append]
  · intro hv
    simp [trnLines, h, PyDict.getD, hv, String.ext_iff, String.data_append]

/-- C5 counterexample: with the balance snapshot missing its
`disponivel` field, `generate_ofx` does succeed, but the available
balance is not emitted as a blank or zero field — the `<BALAMT>` line
carries the literal text `None` (Python's rendering of a missing
`dict.get` result), and neither `<BALAMT></BALAMT>` nor
`<BALAMT>0</BALAMT>` occurs anywhere in the output. -/
theorem ofx_balamt_none_counterexample :
    (generate_ofx_lines fitids0 "20240315" [] [] "2024-03-01" "2024-03-31").filter
        (lineStarts "<BALAMT>") = ["<BALAMT>None</BALAMT>"]
  ∧ "<BALAMT></BALAMT>" ∉ generate_ofx_lines fitids0 "20240315" [] [] "2024-03-01" "2024-03-31"
  ∧ "<BALAMT>0</BALAMT>" ∉ generate_ofx_lines fitids0 "20240315" [] [] "2024-03-01" "2024-03-31" := by
  refine ⟨?_, by decide, by decide⟩
  decide

/-- C5 amended: when the balance snapshot is missing its
available-balance field, `generate_ofx` still succeeds, and the missing
value propagates into the output as the literal degraded text `None` in
the `<BALAMT>` field (not as a blank or zero field, and not as an
error). -/
theorem ofx_balamt_missing_emits_none (fitids : Nat → String) (today : String)
    (trs : List PyDict) (sd ed : String) (saldo : PyDict)
    (h : saldo.get "disponivel" = none) :
    (generate_ofx_lines fitids today trs saldo sd ed).filter (lineStarts "<BALAMT>")
      = ["<BALAMT>None</BALAMT>"] := by
  rw [doc_filter_balamt]
  simp [balamtLineOf, h, fstrOpt, String.ext_iff, String.data_append]

/-- Witness for the amended C5 theorem at a concrete input: a balance
snapshot with no `disponivel` binding yields the `None` balance line. -/
theorem ofx_balamt_missing_emits_none_witness :
    (generate_ofx_lines fitids0 "20240315" [[("descricao", "x")]] [("outro", "1")]
        "2024-03-01" "2024-03-31").filter (lineStarts "<BALAMT>")
      = ["<BALAMT>None</BALAMT>"] :=
  ofx_balamt_missing_emits_none fitids0 "20240315" [[("descricao", "x")]]
    "2024-03-01" "2024-03-31" [("outro", "1")] rfl

/-- The concrete example transaction of the spec: operation type `C`,
posted 2024-03-01, amount `150.00` (a Python float, printed `150.0`),
description `Deposit`. -/
def tx7 : PyDict :=
  [("tipoOperacao", "C"), ("dataEntrada", "2024-03-01"),
   ("valor", "150.0"), ("descricao", "Deposit")]

/-- The concrete example balance snapshot of the spec: available
balance `500.00` (a Python float, printed `500.0`). -/
def saldo7 : PyDict := [("disponivel", "500.0")]

/-- C7: on the spec's worked example — the single `C` transaction of
150.00 posted 2024-03-01 with memo `Deposit`, balance 500.00 and range
2024-03-01..2024-03-31 — the output contains the seven quoted lines,
for any injected clock and id stream. -/
theorem ofx_worked_example (fitids : Nat → String) (today : String) :
    "<TRNTYPE>CREDIT</TRNTYPE>"
        ∈ generate_ofx_lines fitids today [tx7] saldo7 "2024-03-01" "2024-03-31"
  ∧ "<DTPOSTED>20240301</DTPOSTED>"
        ∈ generate_ofx_lines fitids today [tx7] saldo7 "2024-03-01" "2024-03-31"
  ∧ "<TRNAMT>150.0</TRNAMT>"
        ∈ generate_ofx_lines fitids today [tx7] saldo7 "2024-03-01" "2024-03-31"
  ∧ "<MEMO>Deposit</MEMO>"
        ∈ generate_ofx_lines fitids today [tx7] saldo7 "2024-03-01" "2024-03-31"
  ∧ "<DTSTART>20240301</DTSTART>"
        ∈ generate_ofx_lines fitids today [tx7] saldo7 "2024-03-01" "2024-03-31"
  ∧ "<DTEND>20240331</DTEND>"
        ∈ generate_ofx_lines fitids today [tx7] saldo7 "2024-03-01" "2024-03-31"
  ∧ "<BALAMT>500.0</BALAMT>"
        ∈ generate_ofx_lines fitids today [tx7] saldo7 "2024-03-01" "2024-03-31" := by
  refine ⟨?_, ?_, ?_, ?_, ?_, ?_, ?_⟩
  · exact List.mem_of_mem_filter (p := lineStarts "<TRNTYPE>")
      (by rw [doc_filter_trntype]; decide)
  · exact List.mem_of_mem_filter (p := lineStarts "<DTPOSTED>")
      (by rw [doc_filter_dtposted]; decide)
  · exact List.mem_of_mem_filter (p := lineStarts "<TRNAMT>")
      (by rw [doc_filter_trnamt]; decide)
  · exact List.mem_of_mem_filter (p := lineStarts "<MEMO>")
      (by rw [doc_filter_memo]; decide)
  · exact List.mem_of_mem_filter (p := lineStarts "<DTSTART>")
      (by rw [doc_filter_dtstart]; decide)
  · exact List.mem_of_mem_filter (p := lineStarts "<DTEND>")
      (by rw [doc_filter_dtend]; decide)
  · exact List.mem_of_mem_filter (p := lineStarts "<BALAMT>")
      (by rw [doc_filter_balamt]; decide)

/-- Mask the value of a `<FITID>` line with a fixed placeholder; leave
every other line unchanged. -/
def scrubFitid (l : String) : String :=
  if lineStarts "<FITID>" l then "<FITID>SCRUBBED</FITID>" else l

/-- Mask every `<FITID>` line of a document. -/
def scrubDoc (ls : List String) : List String := ls.map scrubFitid

theorem scrub_trnLines (fid : String) (tr : PyDict) :
    (trnLines fid tr).map scrubFitid = trnLines "SCRUBBED" tr := by
  simp [trnLines, scrubFitid, lineStarts, chStarts, String.data_append, String.ext_iff]

theorem scrub_blocks (f : Nat → String) :
    ∀ (i : Nat) (trs : List PyDict),
      scrubDoc (stmtTrnBlocks f i trs) = stmtTrnBlocks (fun _ => "SCRUBBED") i trs := by
  intro i trs
  induction trs generalizing i with
  | nil => rfl
  | cons tr rest ih =>
    simp only [stmtTrnBlocks, scrubDoc, List.map_append]
    rw [scrub_trnLines]
    exact congrArg _ (ih (i + 1))

theorem scrub_prelude (t sd ed : String) :
    scrubDoc (preludeLines t sd ed) = preludeLines t sd ed := by
  simp [preludeLines, scrubDoc, scrubFitid, lineStarts, chStarts, String.data_append]

theorem scrub_epilogue (t : String) (saldo : PyDict) :
    scrubDoc (epilogueLines t saldo) = epilogueLines t saldo := by
  simp [epilogueLines, scrubDoc, scrubFitid, lineStarts, chStarts, String.data_append]

theorem scrubFitid_eq_cases (l1 l2 : String) (h : scrubFitid l1 = scrubFitid l2)
    (hne : l1 ≠ l2) :
    lineStarts "<FITID>" l1 = true ∧ lineStarts "<FITID>" l2 = true := by
  by_cases c1 : lineStarts "<FITID>" l1 = true
  · by_cases c2 : lineStarts "<FITID>" l2 = true
    · exact ⟨c1, c2⟩
    · rw [scrubFitid, scrubFitid, if_pos c1, if_neg c2] at h
      rw [← h] at c2
      exact absurd (by decide) c2
  · by_cases c2 : lineStarts "<FITID>" l2 = true
    · rw [scrubFitid, scrubFitid, if_neg c1, if_pos c2] at h
      rw [h] at c1
      exact absurd (by decide) c1
    · rw [scrubFitid, scrubFitid, if_neg c1, if_neg c2] at h
      exact absurd h hne

theorem fitidLineOf_inj (a b : String) (h : fitidLineOf a = fitidLineOf b) : a = b := by
  have hd := congrArg String.data h
  simp only [fitidLineOf, String.data_append, List.append_assoc] at hd
  have hd' := List.append_cancel_left hd
  have hd'' := List.append_cancel_right hd'
  cases a
  cases b
  exact congrArg String.mk hd''

theorem forall2_ne_of_map_fitid (F G : Nat → String) :
    ∀ (l : List Nat), (∀ x ∈ l, F x ≠ G x) →
      List.Forall₂ (fun a b => a ≠ b)
        (l.map (fun k => fitidLineOf (F k))) (l.map (fun k => fitidLineOf (G k))) := by
  intro l
  induction l with
  | nil => intro _; exact List.Forall₂.nil
  | cons x xs ih =>
    intro h
    refine List.Forall₂.cons ?_ (ih (fun y hy => h y (List.mem_cons_of_mem x hy)))
    intro heq
    exact h x (List.mem_cons_self x xs) (fitidLineOf_inj _ _ heq)

/-- C8: with identical input and a fixed injected clock, two runs of
the builder differ at most in their synthesized `<FITID>` lines: after
masking the FITID values the outputs are byte-identical; every position
at which the two outputs differ holds a `<FITID>` line in both; the
FITID lines are exactly the injected id stream's values, in order; and
when the two runs draw pairwise distinct ids (what `uuid4` is relied on
for), the corresponding FITID lines all differ. -/
theorem ofx_fitid_only_nondeterminism (today : String) (trs : List PyDict)
    (saldo : PyDict) (sd ed : String) (f g : Nat → String) :
    scrubDoc (generate_ofx_lines f today trs saldo sd ed)
      = scrubDoc (generate_ofx_lines g today trs saldo sd ed)
  ∧ (generate_ofx_lines f today trs saldo sd ed).filter (lineStarts "<FITID>")
      = (List.range trs.length).map (fun k => fitidLineOf (f k))
  ∧ (∀ i : Nat,
      (generate_ofx_lines f today trs saldo sd ed)[i]?
          ≠ (generate_ofx_lines g today trs saldo sd ed)[i]? →
      ∃ l1 l2,
        (generate_ofx_lines f today trs saldo sd ed)[i]? = some l1
        ∧ (generate_ofx_lines g today trs saldo sd ed)[i]? = some l2
        ∧ lineStarts "<FITID>" l1 = true ∧ lineStarts "<FITID>" l2 = true)
  ∧ ((∀ k, k < trs.length → f k ≠ g k) →
      List.Forall₂ (fun a b => a ≠ b)
        ((generate_ofx_lines f today trs saldo sd ed).filter (lineStarts "<FITID>"))
        ((generate_ofx_lines g today trs saldo sd ed).filter (lineStarts "<FITID>"))) := by
  have hscrub : scrubDoc (generate_ofx_lines f today trs saldo sd ed)
      = scrubDoc (generate_ofx_lines g today trs saldo sd ed) := by
    simp only [generate_ofx_lines, scrubDoc, List.map_append]
    rw [show ∀ h : Nat → String, (stmtTrnBlocks h 0 trs).map scrubFitid
          = stmtTrnBlocks (fun _ => "SCRUBBED") 0 trs from fun h => scrub_blocks h 0 trs,
        show ∀ h : Nat → String, (stmtTrnBlocks h 0 trs).map scrubFitid
          = stmtTrnBlocks (fun _ => "SCRUBBED") 0 trs from fun h => scrub_blocks h 0 trs]
  refine ⟨hscrub, doc_filter_fitid .., ?_, ?_⟩
  · intro i hne
    have hmap : (generate_ofx_lines f today trs saldo sd ed)[i]?.map scrubFitid
        = (generate_ofx_lines g today trs saldo sd ed)[i]?.map scrubFitid := by
      have h1 := List.getElem?_map scrubFitid (generate_ofx_lines f today trs saldo sd ed) i
      have h2 := List.getElem?_map scrubFitid (generate_ofx_lines g today trs saldo sd ed) i
      rw [← h1, ← h2]
      exact congrArg (fun l => l[i]?) hscrub
    cases e1 : (generate_ofx_lines f today trs saldo sd ed)[i]? with
    | none =>
      cases e2 : (generate_ofx_lines g today trs saldo sd ed)[i]? with
      | none => exact absurd (e1.trans e2.symm) hne
      | some l2 => rw [e1, e2] at hmap; exact absurd hmap (by simp)
    | some l1 =>
      cases e2 : (generate_ofx_lines g today trs saldo sd ed)[i]? with
      | none => rw [e1, e2] at hmap; exact absurd hmap (by simp)
      | some l2 =>
        rw [e1, e2] at hne hmap
        have hls : l1 ≠ l2 := fun e => hne (congrArg some e)
        have hsc : scrubFitid l1 = scrubFitid l2 := by
          simpa using hmap
        obtain ⟨w1, w2⟩ := scrubFitid_eq_cases l1 l2 hsc hls
        exact ⟨l1, l2, rfl, rfl, w1, w2⟩
  · intro hdiff
    rw [doc_filter_fitid, doc_filter_fitid]
    exact forall2_ne_of_map_fitid f g (List.range trs.length)
      (fun x hx => hdiff x (List.mem_range.mp hx))

/-- Two raw records agree on the four fields the transaction loop
reads: `tipoOperacao`, `dataEntrada`, `valor`, `descricao`. -/
def sameCoreFields (t1 t2 : PyDict) : Prop :=
  t1.get "tipoOperacao" = t2.get "tipoOperacao"
  ∧ t1.get "dataEntrada" = t2.get "dataEntrada"
  ∧ t1.get "valor" = t2.get "valor"
  ∧ t1.get "descricao" = t2.get "descricao"

theorem trnLines_congr (fid : String) (t1 t2 : PyDict) (h : sameCoreFields t1 t2) :
    trnLines fid t1 = trnLines fid t2 := by
  obtain ⟨h1, h2, h3, h4⟩ := h
  simp only [trnLines, PyDict.getD, h1, h2, h3, h4]

theorem blocks_congr (f : Nat → String) :
    ∀ {trs1 trs2 : List PyDict}, List.Forall₂ sameCoreFields trs1 trs2 →
      ∀ i, stmtTrnBlocks f i trs1 = stmtTrnBlocks f i trs2 := by
  intro trs1 trs2 h
  induction h with
  | nil => intro i; rfl
  | cons hh _ ih =>
    intro i
    simp only [stmtTrnBlocks]
    rw [trnLines_congr _ _ _ hh, ih (i + 1)]

/-- C9: the output bytes depend only on the `tipoOperacao`,
`dataEntrada`, `valor` and `descricao` fields of each record and on the
`disponivel` field of the balance snapshot (besides the date-range
strings, the injected clock and the injected id stream): two inputs
agreeing on exactly those fields produce identical byte sequences, so
any extra or differing fields are ignored. -/
theorem ofx_depends_only_on_core_fields (fitids : Nat → String) (today sd ed : String)
    (trs1 trs2 : List PyDict) (saldo1 saldo2 : PyDict)
    (h : List.Forall₂ sameCoreFields trs1 trs2)
    (hb : saldo1.get "disponivel" = saldo2.get "disponivel") :
    generate_ofx fitids today trs1 saldo1 sd ed
      = generate_ofx fitids today trs2 saldo2 sd ed := by
  unfold generate_ofx generate_ofx_lines epilogueLines
  rw [blocks_congr fitids h 0, hb]

/-- Witness for the C9 theorem at concrete inputs: a record with an
extra field and a snapshot with an extra field produce the same bytes
as their stripped counterparts. -/
theorem ofx_depends_only_on_core_fields_witness :
    generate_ofx fitids0 "20240101" [[("descricao", "a"), ("extra", "1")]]
        [("disponivel", "5")] "2024-01-01" "2024-01-31"
      = generate_ofx fitids0 "20240101" [[("descricao", "a")]]
        [("disponivel", "5"), ("junk", "9")] "2024-01-01" "2024-01-31" :=
  ofx_depends_only_on_core_fields fitids0 "20240101" "2024-01-01" "2024-01-31" _ _ _ _
    (List.Forall₂.cons ⟨by decide, by decide, by decide, by decide⟩ List.Forall₂.nil)
    (by decide)

/-- Witness for the C2 theorem at concrete records: a record with
operation type `C` gets CREDIT and an unsigned amount; a record without
the operation-type field gets PAYMENT and a minus-prefixed amount. -/
theorem ofx_credit_payment_mapping_witness :
    (trnLines "id1" [("tipoOperacao", "C"), ("valor", "150.0")])[1]?
        = some "<TRNTYPE>CREDIT</TRNTYPE>"
  ∧ lineStarts "<TRNAMT>-"
      (((trnLines "id1" [("tipoOperacao", "C"), ("valor", "150.0")])[3]?).getD "") = false
  ∧ (trnLines "id2" [("valor", "5")])[1]? = some "<TRNTYPE>PAYMENT</TRNTYPE>"
  ∧ lineStarts "<TRNAMT>-" (((trnLines "id2" [("valor", "5")])[3]?).getD "") = true := by
  refine ⟨?_, ?_, ?_, ?_⟩
  · exact ((ofx_credit_payment_mapping "id1" [("tipoOperacao", "C"), ("valor", "150.0")]).1
      (by decide)).1
  · exact ((ofx_credit_payment_mapping "id1" [("tipoOperacao", "C"), ("valor", "150.0")]).1
      (by decide)).2.2 (by decide)
  · exact ((ofx_credit_payment_mapping "id2" [("valor", "5")]).2 (by decide)).1
  · exact ((ofx_credit_payment_mapping "id2" [("valor", "5")]).2 (by decide)).2.2

/-- Witness for the C10 theorem at a concrete record: a record with
neither operation type nor amount is emitted as `<TRNAMT>-0</TRNAMT>`. -/
theorem ofx_payment_minus_zero_default_witness :
    (trnLines "id3" [("foo", "bar")])[3]? = some "<TRNAMT>-0</TRNAMT>" :=
  (ofx_payment_minus_zero_default "id3" [("foo", "bar")] (by decide)).2 (by decide)

/-- Witness for the C8 theorem at concrete inputs: two runs over one
transaction with distinct injected ids differ at position 47 — a FITID
line in both runs — and their FITID lines pairwise differ. -/
theorem ofx_fitid_only_nondeterminism_witness :
    (∃ l1 l2,
       (generate_ofx_lines (fun _ => "aa") "20240101" [[]] [] "2024-01-01" "2024-01-31")[47]?
           = some l1
       ∧ (generate_ofx_lines (fun _ => "bb") "20240101" [[]] [] "2024-01-01" "2024-01-31")[47]?
           = some l2
       ∧ lineStarts "<FITID>" l1 = true ∧ lineStarts "<FITID>" l2 = true)
  ∧ List.Forall₂ (fun a b => a ≠ b)
      ((generate_ofx_lines (fun _ => "aa") "20240101" [[]] [] "2024-01-01"
          "2024-01-31").filter (lineStarts "<FITID>"))
      ((generate_ofx_lines (fun _ => "bb") "20240101" [[]] [] "2024-01-01"
          "2024-01-31").filter (lineStarts "<FITID>")) :=
  ⟨(ofx_fitid_only_nondeterminism "20240101" [[]] [] "2024-01-01" "2024-01-31"
      (fun _ => "aa") (fun _ => "bb")).2.2.1 47 (by decide),
   (ofx_fitid_only_nondeterminism "20240101" [[]] [] "2024-01-01" "2024-01-31"
      (fun _ => "aa") (fun _ => "bb")).2.2.2 (fun k hk => by decide)⟩
